import Mathlib

/-!
Shallow embedding of src/linux/amd.rs (the AMD GPU adapter of gpuinfo).

The external driver library (libdrm_amdgpu_sys) is a black-box capability
provider; the spec scopes it out.  We model its observable behaviour as
data: a `DrmEnv` record carries the outcome of every fallible driver call
(library initialization, PCI enumeration, render-path resolution, file
open, device-handle initialization), and a `DeviceHandle` carries the
outcome of every query made through a handle (memory info, sensor info,
device info).  `active_gpu` and the `AmdGpuInfo` telemetry methods are
translated from the Rust source over these records.
-/

namespace GpuinfoAmd

/-- Sensor kinds the adapter queries (SENSOR_INFO::SENSOR_TYPE of the driver
library; only the two kinds the source uses). -/
inductive SensorType where
  | GPU_LOAD
  | GPU_TEMP
  deriving DecidableEq, Repr

/-- VRAM heap figures of the driver memory-info structure (u64 fields in the
source; overflow plays no role in any claim, so plain Nat). -/
structure VramInfo where
  total_heap_size : Nat
  heap_usage : Nat
  deriving DecidableEq, Repr

/-- Memory-info structure returned by the driver query. -/
structure MemInfo where
  vram : VramInfo
  deriving DecidableEq, Repr

/-- Static device info returned by the driver. `device_name` is the friendly
name the driver may or may not know for the device id. -/
structure DeviceInfo where
  device_name : Option String
  family_name : String
  device_id : Nat
  deriving DecidableEq, Repr

/-- Modelled from the spec: the driver library resolves the model name,
falling back to a generic default string if the driver has no friendly name
for the device id (the library call find_device_name_or_default, external to
this repository). -/
def DeviceInfo.find_device_name_or_default (i : DeviceInfo) : String :=
  i.device_name.getD "AMD Radeon Graphics"

/-- Modelled from the spec: the driver library derives a family-name string
from the static info (the library call get_family_name, external to this
repository). -/
def DeviceInfo.get_family_name (i : DeviceInfo) : String :=
  i.family_name

/-- A driver device handle, modelled by the outcomes of the queries the
source makes through it. -/
structure DeviceHandle where
  memory_info : Except String MemInfo
  sensor_info : SensorType → Except String Nat
  device_info : Except String DeviceInfo

/-- One enumerated PCI device, modelled by the outcome of resolving its DRM
render path. -/
structure PciDev where
  get_drm_render_path : Except String String

/-- The driver environment a discovery run observes: outcome of
LibDrmAmdgpu::new, the enumerated PCI bus list, the outcome of opening a
path as a file (yielding a raw fd), and the outcome of initializing a
device handle from an fd (handle, major, minor). -/
structure DrmEnv where
  libdrm_new : Except Unit Unit
  pci_devs : List PciDev
  file_open : String → Except String Nat
  init_device_handle : Nat → Except String (DeviceHandle × Nat × Nat)

/-- The adapter struct AmdGpu of the source: device path, shared handle and
the identity fields fixed at construction. -/
structure AmdGpu where
  path : String
  device : DeviceHandle
  vendor : String
  model : String
  family : String
  device_id : Nat

/-- The telemetry view AmdGpuInfo of the source: holds a clone of the shared
handle. -/
structure AmdGpuInfo where
  device : DeviceHandle

/-- Gpu::info of the source: builds the telemetry view from a clone of the
shared handle. -/
def AmdGpu.info (g : AmdGpu) : AmdGpuInfo :=
  ⟨g.device⟩

/-- GpuInfo::total_vram of the source: heap total on success, 0 on any
query failure. -/
def AmdGpuInfo.total_vram (s : AmdGpuInfo) : Nat :=
  match s.device.memory_info with
  | .ok meminfo => meminfo.vram.total_heap_size
  | .error _ => 0

/-- GpuInfo::used_vram of the source: heap usage on success, 0 on any
query failure. -/
def AmdGpuInfo.used_vram (s : AmdGpuInfo) : Nat :=
  match s.device.memory_info with
  | .ok meminfo => meminfo.vram.heap_usage
  | .error _ => 0

/-- GpuInfo::load_pct of the source: sensor reading, with unwrap_or_default
(0 for u32) on failure. -/
def AmdGpuInfo.load_pct (s : AmdGpuInfo) : Nat :=
  match s.device.sensor_info .GPU_LOAD with
  | .ok v => v
  | .error _ => 0

/-- GpuInfo::temperature of the source: sensor reading, with
unwrap_or_default (0 for u32) on failure. -/
def AmdGpuInfo.temperature (s : AmdGpuInfo) : Nat :=
  match s.device.sensor_info .GPU_TEMP with
  | .ok v => v
  | .error _ => 0

/-- Discovery function active_gpu of the source, translated match for match:
library init, emptiness check, first-device lookup, render-path resolution,
file open, handle init, static info query, then adapter construction. -/
def active_gpu (env : DrmEnv) : Except String AmdGpu :=
  match env.libdrm_new with
  | .error _ => .error "Could not initialize libdrm"
  | .ok _ =>
    if env.pci_devs.isEmpty then
      .error "No AMD GPU found"
    else
      match env.pci_devs.head? with
      | none => .error "No AMD GPU found"
      | some pci_dev =>
        match pci_dev.get_drm_render_path with
        | .error e => .error e
        | .ok dev_path =>
          match env.file_open dev_path with
          | .error e => .error e
          | .ok fd =>
            match env.init_device_handle fd with
            | .error e => .error ("Could not init device handle: " ++ e)
            | .ok (device, _, _) =>
              match device.device_info with
              | .error e => .error ("Could not get device info: " ++ e)
              | .ok info =>
                .ok { path := dev_path
                      device := device
                      vendor := "AMD"
                      model := info.find_device_name_or_default
                      family := info.get_family_name
                      device_id := info.device_id }

/-- Control-flow instrumentation of active_gpu: true exactly when execution
reaches the None arm of the first-device match (the second source of the
"No AMD GPU found" error), following the same guard sequence as the code. -/
def first_none_branch_reached (env : DrmEnv) : Bool :=
  match env.libdrm_new with
  | .error _ => false
  | .ok _ =>
    if env.pci_devs.isEmpty then
      false
    else
      match env.pci_devs.head? with
      | none => true
      | some _ => false

/- Concrete driver behaviours used by the witnesses. -/

/-- A handle on which every query fails. -/
def errHandle : DeviceHandle :=
  { memory_info := .error "mem fail"
    sensor_info := fun _ => .error "sensor fail"
    device_info := .error "info fail" }

/-- A handle on which every query succeeds. -/
def okHandle : DeviceHandle :=
  { memory_info := .ok ⟨⟨8589934592, 123456⟩⟩
    sensor_info := fun t =>
      match t with
      | .GPU_LOAD => .ok 37
      | .GPU_TEMP => .ok 65
    device_info := .ok ⟨some "Radeon RX 6800", "Navi21", 0x1002⟩ }

/-- A handle whose load sensor reports 150, above the claimed 0..100 band. -/
def overHandle : DeviceHandle :=
  { memory_info := .error "mem fail"
    sensor_info := fun _ => .ok 150
    device_info := .error "info fail" }

/-- An environment in which every discovery stage succeeds. -/
def okEnv : DrmEnv :=
  { libdrm_new := .ok ()
    pci_devs := [⟨.ok "/dev/dri/renderD128"⟩]
    file_open := fun _ => .ok 3
    init_device_handle := fun _ => .ok (okHandle, 226, 128) }

/-- The adapter okEnv discovery constructs. -/
def okGpu : AmdGpu :=
  { path := "/dev/dri/renderD128"
    device := okHandle
    vendor := "AMD"
    model := "Radeon RX 6800"
    family := "Navi21"
    device_id := 0x1002 }

/-- An environment whose enumeration is empty. -/
def emptyEnv : DrmEnv :=
  { libdrm_new := .ok ()
    pci_devs := []
    file_open := fun _ => .error "unopened"
    init_device_handle := fun _ => .error "uninitialized" }

/-- An environment whose handle initialization fails with driver error E1. -/
def e1Env : DrmEnv :=
  { libdrm_new := .ok ()
    pci_devs := [⟨.ok "/dev/dri/renderD128"⟩]
    file_open := fun _ => .ok 3
    init_device_handle := fun _ => .error "E1" }

/-- An environment enumerating two devices, only the first of which works. -/
def twoDevEnv : DrmEnv :=
  { libdrm_new := .ok ()
    pci_devs := [⟨.ok "/dev/dri/renderD128"⟩, ⟨.error "second device"⟩]
    file_open := fun _ => .ok 3
    init_device_handle := fun _ => .ok (okHandle, 226, 128) }

/-- Inversion of a successful discovery: every stage succeeded and the
adapter is exactly the record built from the queried info.  Shared by the
claim theorems below. -/
theorem active_gpu_ok_inv (env : DrmEnv) (g : AmdGpu)
    (h : active_gpu env = .ok g) :
    env.libdrm_new = .ok () ∧ env.pci_devs ≠ [] ∧
    ∃ d p fd dev maj mino info,
      env.pci_devs.head? = some d ∧
      d.get_drm_render_path = .ok p ∧
      env.file_open p = .ok fd ∧
      env.init_device_handle fd = .ok (dev, maj, mino) ∧
      dev.device_info = .ok info ∧
      g = { path := p
            device := dev
            vendor := "AMD"
            model := info.find_device_name_or_default
            family := info.get_family_name
            device_id := info.device_id } := by
  unfold active_gpu at h
  cases hlib : env.libdrm_new with
  | error e => rw [hlib] at h; simp at h
  | ok u =>
    rw [hlib] at h
    cases hdevs : env.pci_devs with
    | nil => rw [hdevs] at h; simp at h
    | cons d rest =>
      rw [hdevs] at h
      simp only [List.isEmpty_cons, List.head?_cons, if_false, Bool.false_eq_true,
        ite_false] at h
      cases hpath : d.get_drm_render_path with
      | error e => rw [hpath] at h; simp at h
      | ok p =>
        simp only [hpath] at h
        cases hopen : env.file_open p with
        | error e => rw [hopen] at h; simp at h
        | ok fd =>
          simp only [hopen] at h
          cases hinit : env.init_device_handle fd with
          | error e => rw [hinit] at h; simp at h
          | ok trip =>
            obtain ⟨dev, maj, mino⟩ := trip
            simp only [hinit] at h
            cases hinfo : dev.device_info with
            | error e => rw [hinfo] at h; simp at h
            | ok info =>
              simp only [hinfo, Except.ok.injEq] at h
              refine ⟨rfl, by simp, d, p, fd, dev, maj, mino, info,
                rfl, hpath, hopen, hinit, hinfo, h.symm⟩

/-- C1: each of the four telemetry operations returns 0 on failure of the
underlying driver query (no error, no panic: the functions are total), and
on success returns the queried value (heap total, heap usage, GPU-load
reading, temperature reading respectively). -/
theorem telemetry_degrade_to_zero (s : AmdGpuInfo) :
    (∀ e, s.device.memory_info = .error e → s.total_vram = 0 ∧ s.used_vram = 0) ∧
    (∀ m, s.device.memory_info = .ok m →
      s.total_vram = m.vram.total_heap_size ∧ s.used_vram = m.vram.heap_usage) ∧
    (∀ e, s.device.sensor_info .GPU_LOAD = .error e → s.load_pct = 0) ∧
    (∀ v, s.device.sensor_info .GPU_LOAD = .ok v → s.load_pct = v) ∧
    (∀ e, s.device.sensor_info .GPU_TEMP = .error e → s.temperature = 0) ∧
    (∀ v, s.device.sensor_info .GPU_TEMP = .ok v → s.temperature = v) := by
  refine ⟨fun e he => ?_, fun m hm => ?_, fun e he => ?_, fun v hv => ?_,
    fun e he => ?_, fun v hv => ?_⟩
  all_goals simp [AmdGpuInfo.total_vram, AmdGpuInfo.used_vram, AmdGpuInfo.load_pct,
    AmdGpuInfo.temperature, *]

/-- Witness for C1: all four telemetry calls on a failing handle give 0, and
on a succeeding handle the queried values. -/
theorem telemetry_degrade_to_zero_witness :
    (AmdGpuInfo.mk errHandle).total_vram = 0 ∧
    (AmdGpuInfo.mk errHandle).used_vram = 0 ∧
    (AmdGpuInfo.mk errHandle).load_pct = 0 ∧
    (AmdGpuInfo.mk errHandle).temperature = 0 ∧
    (AmdGpuInfo.mk okHandle).total_vram = 8589934592 ∧
    (AmdGpuInfo.mk okHandle).used_vram = 123456 ∧
    (AmdGpuInfo.mk okHandle).load_pct = 37 ∧
    (AmdGpuInfo.mk okHandle).temperature = 65 := by
  have hE := telemetry_degrade_to_zero (AmdGpuInfo.mk errHandle)
  have hO := telemetry_degrade_to_zero (AmdGpuInfo.mk okHandle)
  exact ⟨(hE.1 "mem fail" rfl).1, (hE.1 "mem fail" rfl).2,
    hE.2.2.1 "sensor fail" rfl, hE.2.2.2.2.1 "sensor fail" rfl,
    (hO.2.1 ⟨⟨8589934592, 123456⟩⟩ rfl).1, (hO.2.1 ⟨⟨8589934592, 123456⟩⟩ rfl).2,
    hO.2.2.2.1 37 rfl, hO.2.2.2.2.2 65 rfl⟩

/-- C2: a successful discovery implies every stage succeeded, in order:
library init, non-empty enumeration, render-path resolution, file open,
handle init, static info query; and the adapter is exactly the record built
from that info (so no partially-initialized adapter exists: failure of any
stage makes the result an error, Except being two-valued). -/
theorem active_gpu_all_stages_succeed (env : DrmEnv) (g : AmdGpu)
    (h : active_gpu env = .ok g) :
    env.libdrm_new = .ok () ∧ env.pci_devs ≠ [] ∧
    ∃ d p fd dev maj mino info,
      env.pci_devs.head? = some d ∧
      d.get_drm_render_path = .ok p ∧
      env.file_open p = .ok fd ∧
      env.init_device_handle fd = .ok (dev, maj, mino) ∧
      dev.device_info = .ok info ∧
      g = { path := p
            device := dev
            vendor := "AMD"
            model := info.find_device_name_or_default
            family := info.get_family_name
            device_id := info.device_id } :=
  active_gpu_ok_inv env g h

/-- Witness for C2, at an environment where every stage succeeds. -/
theorem active_gpu_all_stages_succeed_witness :
    okEnv.libdrm_new = .ok () ∧ okEnv.pci_devs ≠ [] ∧
    ∃ d p fd dev maj mino info,
      okEnv.pci_devs.head? = some d ∧
      d.get_drm_render_path = .ok p ∧
      okEnv.file_open p = .ok fd ∧
      okEnv.init_device_handle fd = .ok (dev, maj, mino) ∧
      dev.device_info = .ok info ∧
      okGpu = { path := p
                device := dev
                vendor := "AMD"
                model := info.find_device_name_or_default
                family := info.get_family_name
                device_id := info.device_id } :=
  active_gpu_all_stages_succeed okEnv okGpu rfl

/-- C3: if the library initialized and enumeration is empty, discovery
returns the "No AMD GPU found" error (and, being a total function, never
panics). -/
theorem active_gpu_empty_enumeration (env : DrmEnv)
    (hlib : env.libdrm_new = .ok ()) (hdevs : env.pci_devs = []) :
    active_gpu env = .error "No AMD GPU found" := by
  unfold active_gpu
  simp [hlib, hdevs]

/-- Witness for C3, at an environment with empty enumeration. -/
theorem active_gpu_empty_enumeration_witness :
    emptyEnv.libdrm_new = .ok () ∧ emptyEnv.pci_devs = [] ∧
    active_gpu emptyEnv = .error "No AMD GPU found" :=
  ⟨rfl, rfl, active_gpu_empty_enumeration emptyEnv rfl rfl⟩

/-- C4: one enumerated device, render path resolved and file opened, handle
init fails with driver error string "E1": discovery returns the wrapped
error, whose message contains "E1" as a substring, and no adapter is
constructed (the result is an error). -/
theorem active_gpu_handle_init_failure_e1 (env : DrmEnv) (d : PciDev)
    (p : String) (fd : Nat)
    (hlib : env.libdrm_new = .ok ())
    (hdevs : env.pci_devs = [d])
    (hpath : d.get_drm_render_path = .ok p)
    (hopen : env.file_open p = .ok fd)
    (hinit : env.init_device_handle fd = .error "E1") :
    active_gpu env = .error ("Could not init device handle: " ++ "E1") ∧
    ∃ pre suf, "Could not init device handle: " ++ "E1" = pre ++ "E1" ++ suf := by
  constructor
  · unfold active_gpu
    simp only [hlib, hdevs, List.isEmpty_cons, Bool.false_eq_true, if_false,
      ite_false, List.head?_cons, hpath, hopen, hinit]
  · exact ⟨"Could not init device handle: ", "", by decide⟩

/-- Witness for C4, at an environment whose handle init fails with "E1". -/
theorem active_gpu_handle_init_failure_e1_witness :
    active_gpu e1Env = .error ("Could not init device handle: " ++ "E1") ∧
    ∃ pre suf, "Could not init device handle: " ++ "E1" = pre ++ "E1" ++ suf :=
  active_gpu_handle_init_failure_e1 e1Env ⟨.ok "/dev/dri/renderD128"⟩
    "/dev/dri/renderD128" 3 rfl rfl rfl rfl rfl

/-- C5: one enumerated device, handle init and info query succeed with
device_id 0x1002 and family "Navi21": the resulting adapter has vendor
"AMD" (the constant set at construction), that device id and family, and
its model is the resolved driver name, which falls back to the generic
default string when the driver has no friendly name. -/
theorem active_gpu_navi21_scenario (env : DrmEnv) (d : PciDev) (p : String)
    (fd : Nat) (dev : DeviceHandle) (maj mino : Nat) (info : DeviceInfo)
    (hlib : env.libdrm_new = .ok ())
    (hdevs : env.pci_devs = [d])
    (hpath : d.get_drm_render_path = .ok p)
    (hopen : env.file_open p = .ok fd)
    (hinit : env.init_device_handle fd = .ok (dev, maj, mino))
    (hinfo : dev.device_info = .ok info)
    (hid : info.device_id = 0x1002)
    (hfam : info.family_name = "Navi21") :
    ∃ g, active_gpu env = .ok g ∧ g.vendor = "AMD" ∧ g.device_id = 0x1002 ∧
      g.family = "Navi21" ∧ g.model = info.find_device_name_or_default ∧
      (info.device_name = none → g.model = "AMD Radeon Graphics") := by
  have hg : active_gpu env = .ok
      { path := p
        device := dev
        vendor := "AMD"
        model := info.find_device_name_or_default
        family := info.get_family_name
        device_id := info.device_id } := by
    unfold active_gpu
    simp only [hlib, hdevs, List.isEmpty_cons, Bool.false_eq_true, if_false,
      ite_false, List.head?_cons, hpath, hopen, hinit, hinfo]
  exact ⟨_, hg, rfl, hid, by simp [DeviceInfo.get_family_name, hfam], rfl,
    fun hn => by simp [DeviceInfo.find_device_name_or_default, hn]⟩

/-- Witness for C5, at the all-success environment with a Navi21 device. -/
theorem active_gpu_navi21_scenario_witness :
    ∃ g, active_gpu okEnv = .ok g ∧ g.vendor = "AMD" ∧ g.device_id = 0x1002 ∧
      g.family = "Navi21" ∧
      g.model =
        (DeviceInfo.mk (some "Radeon RX 6800") "Navi21" 0x1002).find_device_name_or_default ∧
      ((DeviceInfo.mk (some "Radeon RX 6800") "Navi21" 0x1002).device_name = none →
        g.model = "AMD Radeon Graphics") :=
  active_gpu_navi21_scenario okEnv ⟨.ok "/dev/dri/renderD128"⟩
    "/dev/dri/renderD128" 3 okHandle 226 128
    (DeviceInfo.mk (some "Radeon RX 6800") "Navi21" 0x1002)
    rfl rfl rfl rfl rfl rfl rfl rfl

/-- C6: for any non-empty enumeration, discovery computes the same result as
it would with only the first enumerated device present: no other enumerated
device influences the run. -/
theorem active_gpu_uses_first_device (env : DrmEnv) (d : PciDev)
    (rest : List PciDev) (h : env.pci_devs = d :: rest) :
    active_gpu env = active_gpu { env with pci_devs := [d] } := by
  obtain ⟨lib, devs, fo, ih⟩ := env
  simp only at h
  subst h
  unfold active_gpu
  simp only [List.isEmpty_cons, Bool.false_eq_true, if_false, ite_false,
    List.head?_cons]

/-- Witness for C6, at an environment enumerating two devices. -/
theorem active_gpu_uses_first_device_witness :
    twoDevEnv.pci_devs =
      PciDev.mk (.ok "/dev/dri/renderD128") :: [PciDev.mk (.error "second device")] ∧
    active_gpu twoDevEnv =
      active_gpu { twoDevEnv with pci_devs := [PciDev.mk (.ok "/dev/dri/renderD128")] } :=
  ⟨rfl, active_gpu_uses_first_device twoDevEnv _ _ rfl⟩

/-- C7 counterexample: the code does not clamp the sensor reading, so a
driver reporting 150 makes load_pct return 150, outside 0..100. -/
theorem load_pct_range_counterexample :
    (AmdGpuInfo.mk overHandle).load_pct = 150 ∧
    ¬ (AmdGpuInfo.mk overHandle).load_pct ≤ 100 := by
  constructor
  · rfl
  · decide

/-- C7 amended: load_pct passes the sensor reading through unchanged, so it
lies in 0..100 whenever every possible reading does, and it is 0 whenever
the sensor query fails. -/
theorem load_pct_range_amended (s : AmdGpuInfo)
    (h : ∀ v, s.device.sensor_info .GPU_LOAD = .ok v → v ≤ 100) :
    s.load_pct ≤ 100 ∧
    ∀ e, s.device.sensor_info .GPU_LOAD = .error e → s.load_pct = 0 := by
  constructor
  · cases hs : s.device.sensor_info .GPU_LOAD with
    | ok v => have hv := h v hs; simpa [AmdGpuInfo.load_pct, hs] using hv
    | error e => simp [AmdGpuInfo.load_pct, hs]
  · intro e he
    simp [AmdGpuInfo.load_pct, he]

/-- Witness for the amended C7, at a handle whose load sensor reads 37. -/
theorem load_pct_range_amended_witness :
    (∀ v, okHandle.sensor_info .GPU_LOAD = .ok v → v ≤ 100) ∧
    (AmdGpuInfo.mk okHandle).load_pct ≤ 100 ∧
    ∀ e, okHandle.sensor_info .GPU_LOAD = .error e →
      (AmdGpuInfo.mk okHandle).load_pct = 0 := by
  have hv : ∀ v, okHandle.sensor_info .GPU_LOAD = .ok v → v ≤ 100 := by
    intro v hvv
    simp [okHandle] at hvv
    omega
  exact ⟨hv, load_pct_range_amended (AmdGpuInfo.mk okHandle) hv⟩

/-- C8: the four identity accessors are projections of fields fixed at
construction: replacing the driver handle changes none of them, so they
never query the handle and return identical values across repeated calls
(the embedding is pure, as the Rust accessors are plain field borrows). -/
theorem identity_accessors_pure (g : AmdGpu) (d : DeviceHandle) :
    ({ g with device := d } : AmdGpu).vendor = g.vendor ∧
    ({ g with device := d } : AmdGpu).model = g.model ∧
    ({ g with device := d } : AmdGpu).family = g.family ∧
    ({ g with device := d } : AmdGpu).device_id = g.device_id :=
  ⟨rfl, rfl, rfl, rfl⟩

/-- C10: the None arm of the first-device match is dead code: once the
emptiness check has passed, the list is non-empty and its head exists, so
the instrumented reachability flag is false on every environment. -/
theorem first_none_branch_unreachable (env : DrmEnv) :
    first_none_branch_reached env = false := by
  unfold first_none_branch_reached
  cases hlib : env.libdrm_new with
  | error e => rfl
  | ok u =>
    cases hdevs : env.pci_devs with
    | nil => rfl
    | cons d rest => simp

end GpuinfoAmd
